import Mathlib

/-!
# Verification of the spine-ts skeletal runtime core

A shallow embedding of the spine-ts runtime core (slot state, vertex
skinning, mesh UV remapping, linked meshes, and the setup-pose lookup
container), with theorems settling the specification's claims about it.

Floating-point numbers of the source are modelled as rationals `ℚ`; the
claims under verification are algebraic, not about rounding.  JavaScript
out-of-range array reads (which yield `undefined`/NaN) are totalised with
`List.getD _ 0`; all claims concern in-range indices.  Object references
are modelled by explicit numeric identities where reference equality
matters, with a fresh-identity counter threaded through allocating
operations.
-/

namespace SpineVerify

/-- A bone's derived world affine transform `(a, b, c, d, worldX, worldY)`,
as read by `VertexAttachment.computeWorldVertices` from `slot.bone` and
`skeleton.bones`. -/
structure BoneTransform where
  a : ℚ
  b : ℚ
  c : ℚ
  d : ℚ
  worldX : ℚ
  worldY : ℚ
deriving DecidableEq, Inhabited

/-- The parts of a `Slot` that `computeWorldVertices` reads: the slot's
bone, the owning skeleton's bone list (`slot.bone.skeleton.bones`), and the
slot's deform buffer. -/
structure SlotPose where
  bone : BoneTransform
  skeletonBones : List BoneTransform
  deform : List ℚ
deriving DecidableEq

/-- The parts of a `VertexAttachment` that `computeWorldVertices` reads:
`bones` (null for an unweighted attachment), `vertices`, and
`worldVerticesLength`. -/
structure VertexAttachmentPose where
  bones : Option (List Nat)
  vertices : List ℚ
  worldVerticesLength : Nat
deriving DecidableEq

/-- The unweighted loop of `computeWorldVertices`:
`for (let v = start, w = offset; w < count; v += 2, w += stride)` writing
`worldVertices[w] = vx*a + vy*b + x` and `worldVertices[w+1] = vx*c + vy*d + y`.
The `fuel` argument bounds the number of iterations; the caller passes
`count / 2`, which is exactly the trip count of the source loop (for
`stride = 0` the loop bound `cnt` equals the initial `w`, so the guard
fails at once on both sides). -/
def unweightedLoop (vertices : List ℚ) (bt : BoneTransform) (stride cnt : Nat) :
    Nat → Nat → Nat → (Nat → ℚ) → Nat → ℚ
  | 0, _, _, out => out
  | fuel + 1, v, w, out =>
    if w < cnt then
      let vx := vertices.getD v 0
      let vy := vertices.getD (v + 1) 0
      unweightedLoop vertices bt stride cnt fuel (v + 2) (w + stride)
        (Function.update (Function.update out w (vx * bt.a + vy * bt.b + bt.worldX))
          (w + 1) (vx * bt.c + vy * bt.d + bt.worldY))
    else out

/-- The inner accumulation loop of the weighted, deform-free branch:
`for (; v < n; v++, b += 3)` summing
`(vx*bone.a + vy*bone.b + bone.worldX) * weight` into `wx` (and `wy`
likewise), run `cn = bones[v]` times.  Returns `(wx, wy, v, b)` after the
loop. -/
def weightedVertexSum (skeletonBones : List BoneTransform) (bn : List Nat)
    (vertices : List ℚ) : Nat → Nat → Nat → ℚ → ℚ → ℚ × ℚ × Nat × Nat
  | 0, v, b, wx, wy => (wx, wy, v, b)
  | cn + 1, v, b, wx, wy =>
    let bone := skeletonBones.getD (bn.getD v 0) default
    let vx := vertices.getD b 0
    let vy := vertices.getD (b + 1) 0
    let weight := vertices.getD (b + 2) 0
    weightedVertexSum skeletonBones bn vertices cn (v + 1) (b + 3)
      (wx + (vx * bone.a + vy * bone.b + bone.worldX) * weight)
      (wy + (vx * bone.c + vy * bone.d + bone.worldY) * weight)

/-- The inner accumulation loop of the weighted branch with a non-empty
deform buffer: as `weightedVertexSum` but with
`vx = vertices[b] + deform[f]`, `vy = vertices[b+1] + deform[f+1]`, and
`f += 2` per influencing bone.  Returns `(wx, wy, v, b, f)`. -/
def weightedVertexSumDeform (skeletonBones : List BoneTransform) (bn : List Nat)
    (vertices deform : List ℚ) :
    Nat → Nat → Nat → Nat → ℚ → ℚ → ℚ × ℚ × Nat × Nat × Nat
  | 0, v, b, f, wx, wy => (wx, wy, v, b, f)
  | cn + 1, v, b, f, wx, wy =>
    let bone := skeletonBones.getD (bn.getD v 0) default
    let vx := vertices.getD b 0 + deform.getD f 0
    let vy := vertices.getD (b + 1) 0 + deform.getD (f + 1) 0
    let weight := vertices.getD (b + 2) 0
    weightedVertexSumDeform skeletonBones bn vertices deform cn (v + 1) (b + 3) (f + 2)
      (wx + (vx * bone.a + vy * bone.b + bone.worldX) * weight)
      (wy + (vx * bone.c + vy * bone.d + bone.worldY) * weight)

/-- The outer loop of the weighted, deform-free branch:
`for (let w = offset, b = skip * 3; w < count; w += stride)`, each
iteration reading `n = bones[v++]` and accumulating over that vertex's
bone group, then writing `worldVertices[w] = wx`,
`worldVertices[w+1] = wy`.  `fuel` is the trip count `count / 2`. -/
def weightedLoop (skeletonBones : List BoneTransform) (bn : List Nat)
    (vertices : List ℚ) (stride cnt : Nat) :
    Nat → Nat → Nat → Nat → (Nat → ℚ) → Nat → ℚ
  | 0, _, _, _, out => out
  | fuel + 1, v, b, w, out =>
    if w < cnt then
      let cn := bn.getD v 0
      match weightedVertexSum skeletonBones bn vertices cn (v + 1) b 0 0 with
      | (wx, wy, v2, b2) =>
        weightedLoop skeletonBones bn vertices stride cnt fuel v2 b2 (w + stride)
          (Function.update (Function.update out w wx) (w + 1) wy)
    else out

/-- The outer loop of the weighted branch with non-empty deform:
`for (let w = offset, b = skip * 3, f = skip << 1; w < count; w += stride)`. -/
def weightedLoopDeform (skeletonBones : List BoneTransform) (bn : List Nat)
    (vertices deform : List ℚ) (stride cnt : Nat) :
    Nat → Nat → Nat → Nat → Nat → (Nat → ℚ) → Nat → ℚ
  | 0, _, _, _, _, out => out
  | fuel + 1, v, b, f, w, out =>
    if w < cnt then
      let cn := bn.getD v 0
      match weightedVertexSumDeform skeletonBones bn vertices deform cn (v + 1) b f 0 0 with
      | (wx, wy, v2, b2, f2) =>
        weightedLoopDeform skeletonBones bn vertices deform stride cnt fuel v2 b2 f2
          (w + stride) (Function.update (Function.update out w wx) (w + 1) wy)
    else out

/-- The skip loop locating the bone-group position for `start`:
`for (let i = 0; i < start; i += 2) { let n = bones[v]; v += n + 1; skip += n }`,
which runs `(start + 1) / 2` times (`i` steps by 2). -/
def skipLoop (bn : List Nat) : Nat → Nat → Nat → Nat × Nat
  | 0, v, skip => (v, skip)
  | i + 1, v, skip =>
    let n := bn.getD v 0
    skipLoop bn i (v + n + 1) (skip + n)

/-- `VertexAttachment.computeWorldVertices(slot, start, count, worldVertices,
offset, stride)`.  The source first rebinds
`count = offset + (count >> 1) * stride` (named `cnt` here) and then runs
one of three loops depending on `bones` and the deform buffer.  The output
buffer is modelled as a total map `Nat → ℚ`, so that the positions the call
does not write are provably unchanged. -/
def computeWorldVertices (att : VertexAttachmentPose) (slot : SlotPose)
    (start count : Nat) (worldVertices : Nat → ℚ) (offset stride : Nat) : Nat → ℚ :=
  let cnt := offset + (count / 2) * stride
  match att.bones with
  | none =>
    let vertices := if 0 < slot.deform.length then slot.deform else att.vertices
    unweightedLoop vertices slot.bone stride cnt (count / 2) start offset worldVertices
  | some bn =>
    match skipLoop bn ((start + 1) / 2) 0 0 with
    | (v, skip) =>
      if slot.deform.length = 0 then
        weightedLoop slot.skeletonBones bn att.vertices stride cnt (count / 2)
          v (skip * 3) offset worldVertices
      else
        weightedLoopDeform slot.skeletonBones bn att.vertices slot.deform stride cnt
          (count / 2) v (skip * 3) (skip * 2) offset worldVertices

/-! ## Slot state (`Slot.setAttachment`, `Slot.setToSetupPose`) -/

/-- An RGBA tint color. -/
structure ColorM where
  r : ℚ
  g : ℚ
  b : ℚ
  a : ℚ
deriving DecidableEq, Inhabited

/-- `SlotData`: the slot blueprint fields that `Slot.setToSetupPose` reads
(`index`, `name`, setup colors, and the nullable setup attachment name). -/
structure SlotDataM where
  index : Nat
  name : String
  color : ColorM
  darkColor : Option ColorM
  attachmentName : Option String
deriving DecidableEq

/-- Runtime `Slot` state.  Attachments are identified by reference: an
`Option Nat` object identity (`none` is the null attachment), so that the
source's `==` identity comparison is plain equality of identities. -/
structure SlotM where
  data : SlotDataM
  color : ColorM
  darkColor : Option ColorM
  attachment : Option Nat
  attachmentTime : ℚ
  deform : List ℚ
deriving DecidableEq

/-- `Slot.setAttachment(attachment)`: early-returns when the argument is
the same object as the current attachment; otherwise stores it, stamps
`attachmentTime` with `this.bone.skeleton.time` (passed as `skeletonTime`),
and truncates the deform buffer to length 0. -/
def setAttachmentM (skeletonTime : ℚ) (s : SlotM) (attachment : Option Nat) : SlotM :=
  if s.attachment = attachment then s
  else { s with attachment := attachment, attachmentTime := skeletonTime, deform := [] }

/-- `Slot.setToSetupPose()`: copies the setup colors, then either nulls the
attachment (null setup name) or nulls it and calls `setAttachment` with the
result of `this.bone.skeleton.getAttachment(this.data.index,
this.data.attachmentName)`.  The skeleton's skin lookup is outside the
shown source and is passed in as the abstract function `getAtt`. -/
def setToSetupPoseM (skeletonTime : ℚ) (getAtt : Nat → String → Option Nat)
    (s : SlotM) : SlotM :=
  let s1 : SlotM := { s with
    color := s.data.color
    darkColor := match s.darkColor with
      | none => none
      | some _ => some (s.data.darkColor.getD default) }
  match s1.data.attachmentName with
  | none => { s1 with attachment := none }
  | some nm =>
    setAttachmentM skeletonTime { s1 with attachment := none } (getAtt s1.data.index nm)

/-! ## Setup-pose data container (`SkeletonData` find-by-name lookups) -/

/-- `BoneData` (only the `name` field matters to the lookups). -/
structure BoneDataM where
  name : String
deriving DecidableEq

/-- `Skin` (name only). -/
structure SkinM where
  name : String
deriving DecidableEq

/-- `EventData` (name only). -/
structure EventDataM where
  name : String
deriving DecidableEq

/-- `Animation` (name only). -/
structure AnimationM where
  name : String
deriving DecidableEq

/-- `IkConstraintData` (name only). -/
structure IkConstraintDataM where
  name : String
deriving DecidableEq

/-- `TransformConstraintDataM` (name only). -/
structure TransformConstraintDataM where
  name : String
deriving DecidableEq

/-- `PathConstraintData`: its `name` and the private nullable `_target`
slot-data reference behind the throwing getter. -/
structure PathConstraintDataM where
  name : String
  _target : Option SlotDataM
deriving DecidableEq

/-- The `target` setter: `this._target = slotData`. -/
def PathConstraintDataM.setTarget (p : PathConstraintDataM) (slotData : SlotDataM) :
    PathConstraintDataM :=
  { p with _target := some slotData }

/-- The `target` getter: `if (!this._target) throw new Error("SlotData not
set."); else return this._target`.  The throw is an `Except.error`; the
getter reads no other state and writes none. -/
def PathConstraintDataM.getTarget (p : PathConstraintDataM) : Except String SlotDataM :=
  match p._target with
  | none => .error "SlotData not set."
  | some t => .ok t

/-- `SkeletonData`: the ordered lists scanned by the find-by-name lookups. -/
structure SkeletonDataM where
  bones : List BoneDataM
  slots : List SlotDataM
  skins : List SkinM
  events : List EventDataM
  animations : List AnimationM
  ikConstraints : List IkConstraintDataM
  transformConstraints : List TransformConstraintDataM
  pathConstraints : List PathConstraintDataM

/-- The linear scan shared by every `find*` method: walk the list in order
and return the first element whose name equals the argument, else null. -/
def scanName {α : Type} (getName : α → String) (nm : String) : List α → Option α
  | [] => none
  | x :: rest => if getName x = nm then some x else scanName getName nm rest

/-- The linear scan shared by the `find*Index` methods: the index of the
first element whose name equals the argument, else `-1`.  `i` is the
running loop counter. -/
def scanNameIdx {α : Type} (getName : α → String) (nm : String) : List α → Nat → Int
  | [], _ => -1
  | x :: rest, i => if getName x = nm then (i : Int) else scanNameIdx getName nm rest (i + 1)

/-- `SkeletonData.findBone`: throws on a null name, else scans `bones`. -/
def findBone (sd : SkeletonDataM) (boneName : Option String) :
    Except String (Option BoneDataM) :=
  match boneName with
  | none => .error "boneName cannot be null."
  | some nm => .ok (scanName BoneDataM.name nm sd.bones)

/-- `SkeletonData.findBoneIndex`. -/
def findBoneIndex (sd : SkeletonDataM) (boneName : Option String) : Except String Int :=
  match boneName with
  | none => .error "boneName cannot be null."
  | some nm => .ok (scanNameIdx BoneDataM.name nm sd.bones 0)

/-- `SkeletonData.findSlot`. -/
def findSlot (sd : SkeletonDataM) (slotName : Option String) :
    Except String (Option SlotDataM) :=
  match slotName with
  | none => .error "slotName cannot be null."
  | some nm => .ok (scanName SlotDataM.name nm sd.slots)

/-- `SkeletonData.findSlotIndex`. -/
def findSlotIndex (sd : SkeletonDataM) (slotName : Option String) : Except String Int :=
  match slotName with
  | none => .error "slotName cannot be null."
  | some nm => .ok (scanNameIdx SlotDataM.name nm sd.slots 0)

/-- `SkeletonData.findSkin`. -/
def findSkin (sd : SkeletonDataM) (skinName : Option String) :
    Except String (Option SkinM) :=
  match skinName with
  | none => .error "skinName cannot be null."
  | some nm => .ok (scanName SkinM.name nm sd.skins)

/-- `SkeletonData.findEvent`. -/
def findEvent (sd : SkeletonDataM) (eventDataName : Option String) :
    Except String (Option EventDataM) :=
  match eventDataName with
  | none => .error "eventDataName cannot be null."
  | some nm => .ok (scanName EventDataM.name nm sd.events)

/-- `SkeletonData.findAnimation`. -/
def findAnimation (sd : SkeletonDataM) (animationName : Option String) :
    Except String (Option AnimationM) :=
  match animationName with
  | none => .error "animationName cannot be null."
  | some nm => .ok (scanName AnimationM.name nm sd.animations)

/-- `SkeletonData.findIkConstraint`. -/
def findIkConstraint (sd : SkeletonDataM) (constraintName : Option String) :
    Except String (Option IkConstraintDataM) :=
  match constraintName with
  | none => .error "constraintName cannot be null."
  | some nm => .ok (scanName IkConstraintDataM.name nm sd.ikConstraints)

/-- `SkeletonData.findTransformConstraint`. -/
def findTransformConstraint (sd : SkeletonDataM) (constraintName : Option String) :
    Except String (Option TransformConstraintDataM) :=
  match constraintName with
  | none => .error "constraintName cannot be null."
  | some nm => .ok (scanName TransformConstraintDataM.name nm sd.transformConstraints)

/-- `SkeletonData.findPathConstraint`. -/
def findPathConstraint (sd : SkeletonDataM) (constraintName : Option String) :
    Except String (Option PathConstraintDataM) :=
  match constraintName with
  | none => .error "constraintName cannot be null."
  | some nm => .ok (scanName PathConstraintDataM.name nm sd.pathConstraints)

/-- `SkeletonData.findPathConstraintIndex`. -/
def findPathConstraintIndex (sd : SkeletonDataM) (pathConstraintName : Option String) :
    Except String Int :=
  match pathConstraintName with
  | none => .error "pathConstraintName cannot be null."
  | some nm => .ok (scanNameIdx PathConstraintDataM.name nm sd.pathConstraints 0)

/-! ## Texture regions and `MeshAttachment.updateUVs` -/

/-- A texture region as read by `updateUVs`: the base `TextureRegion`
fields `u, v, u2, v2`, and — when the region is a `TextureAtlasRegion`
(`isAtlas`) — the packing fields and the backing texture image size. -/
structure RegionM where
  u : ℚ
  v : ℚ
  u2 : ℚ
  v2 : ℚ
  isAtlas : Bool
  degrees : Nat
  offsetX : ℚ
  offsetY : ℚ
  width : ℚ
  height : ℚ
  originalWidth : ℚ
  originalHeight : ℚ
  texWidth : ℚ
  texHeight : ℚ
deriving DecidableEq, Inhabited

/-- The unrotated fill loop: `uvs[i] = u + regionUVs[i] * width;
uvs[i+1] = v + regionUVs[i+1] * height`.  The loops walk the buffer in
x,y pairs; a trailing odd element (never produced by the runtime, and NaN
in JavaScript) is left as is. -/
def remapPlain (u v w h : ℚ) : List ℚ → List ℚ
  | x :: y :: rest => (u + x * w) :: (v + y * h) :: remapPlain u v w h rest
  | rest => rest

/-- The 90-degree case: `uvs[i] = u + regionUVs[i+1] * width;
uvs[i+1] = v + (1 - regionUVs[i]) * height`. -/
def remap90 (u v w h : ℚ) : List ℚ → List ℚ
  | x :: y :: rest => (u + y * w) :: (v + (1 - x) * h) :: remap90 u v w h rest
  | rest => rest

/-- The 180-degree case: `uvs[i] = u + (1 - regionUVs[i]) * width;
uvs[i+1] = v + (1 - regionUVs[i+1]) * height`. -/
def remap180 (u v w h : ℚ) : List ℚ → List ℚ
  | x :: y :: rest => (u + (1 - x) * w) :: (v + (1 - y) * h) :: remap180 u v w h rest
  | rest => rest

/-- The 270-degree case: `uvs[i] = u + (1 - regionUVs[i+1]) * width;
uvs[i+1] = v + regionUVs[i] * height`. -/
def remap270 (u v w h : ℚ) : List ℚ → List ℚ
  | x :: y :: rest => (u + (1 - y) * w) :: (v + x * h) :: remap270 u v w h rest
  | rest => rest

/-- The value computation of `updateUVs` for a non-null region: choose the
origin/extent adjustment and the remap formula by region kind and
`degrees`, exactly as the source's `switch` does. -/
def computeUVs (r : RegionM) (regionUVs : List ℚ) : List ℚ :=
  if r.isAtlas then
    if r.degrees = 90 then
      remap90 (r.u - (r.originalHeight - r.offsetY - r.height) / r.texWidth)
        (r.v - (r.originalWidth - r.offsetX - r.width) / r.texHeight)
        (r.originalHeight / r.texWidth) (r.originalWidth / r.texHeight) regionUVs
    else if r.degrees = 180 then
      remap180 (r.u - (r.originalWidth - r.offsetX - r.width) / r.texWidth)
        (r.v - r.offsetY / r.texHeight)
        (r.originalWidth / r.texWidth) (r.originalHeight / r.texHeight) regionUVs
    else if r.degrees = 270 then
      remap270 (r.u - r.offsetY / r.texWidth) (r.v - r.offsetX / r.texHeight)
        (r.originalHeight / r.texWidth) (r.originalWidth / r.texHeight) regionUVs
    else
      remapPlain (r.u - r.offsetX / r.texWidth)
        (r.v - (r.originalHeight - r.offsetY - r.height) / r.texHeight)
        (r.originalWidth / r.texWidth) (r.originalHeight / r.texHeight) regionUVs
  else
    remapPlain r.u r.v (r.u2 - r.u) (r.v2 - r.v) regionUVs

/-! ## Reference-level attachment model (aliasing, copies, linked meshes)

Arrays are modelled as `Arr`: a numeric identity (reference) together with
the contents.  `new Array`/`Utils.newFloatArray` allocations draw a fresh
identity from a counter threaded through each operation; two fields alias
exactly when their `ref` components are equal. -/

/-- A JavaScript array value: object identity plus contents. -/
structure Arr (α : Type) where
  ref : Nat
  data : List α
deriving DecidableEq, Inhabited

/-- The `VertexAttachment` fields touched by `copyTo`: `bones` (nullable
array), `vertices`, `worldVerticesLength`, and the `deformAttachment`
object reference. -/
structure VAFields where
  bones : Option (Arr Nat)
  vertices : Arr ℚ
  worldVerticesLength : Nat
  deformAttachment : Nat
deriving DecidableEq, Inhabited

/-- `VertexAttachment.copyTo(attachment)`: clones `bones` (or nulls it) and
`vertices` into freshly allocated arrays with the same contents, and copies
`worldVerticesLength` and the `deformAttachment` reference as is.  (The
source guards `vertices` with a truthiness test, but an array — even an
empty one — is always truthy, so the copy is unconditional.)  Returns the
destination's new fields and the advanced allocation counter. -/
def copyToVA (src : VAFields) (ctr : Nat) : VAFields × Nat :=
  match src.bones with
  | some bn =>
    (⟨some ⟨ctr, bn.data⟩, ⟨ctr + 1, src.vertices.data⟩,
      src.worldVerticesLength, src.deformAttachment⟩, ctr + 2)
  | none =>
    (⟨none, ⟨ctr, src.vertices.data⟩,
      src.worldVerticesLength, src.deformAttachment⟩, ctr + 1)

/-- A `MeshAttachment` object at the reference level.  `selfId` is the
object's own identity, `parentMesh` the identity of the parent mesh when
this is a linked mesh, `region` the (nullable) region value.  The tint
colors are plain value state not involved in any aliasing claim and are
omitted. -/
structure MeshM where
  va : VAFields
  selfId : Nat
  name : String
  path : String
  region : Option RegionM
  regionUVs : Arr ℚ
  uvs : Arr ℚ
  triangles : Arr Nat
  edges : Arr Nat
  width : ℚ
  height : ℚ
  hullLength : Nat
  parentMesh : Option Nat
deriving DecidableEq, Inhabited

/-- Projection helpers used to state facts about a call that may throw:
whether it returned normally, and (when it did) its value. -/
def exceptOk {ε α : Type} : Except ε α → Bool
  | .ok _ => true
  | .error _ => false

/-- The returned value of a non-throwing call (junk on a throw). -/
def exceptGet {ε α : Type} [Inhabited α] : Except ε α → α
  | .ok a => a
  | .error _ => default

/-- `new MeshAttachment(name, path)`: a fresh object whose field
initializers allocate fresh empty arrays (`regionUVs`, `uvs`, `triangles`,
`edges`, and the inherited `vertices`), with `bones = null`,
`region = null`, `parentMesh = null`, and `deformAttachment = this`. -/
def newMeshM (name path : String) (ctr : Nat) : MeshM × Nat :=
  (⟨⟨none, ⟨ctr + 5, []⟩, 0, ctr⟩, ctr, name, path, none,
    ⟨ctr + 1, []⟩, ⟨ctr + 2, []⟩, ⟨ctr + 3, []⟩, ⟨ctr + 4, []⟩,
    0, 0, 0, none⟩, ctr + 6)

/-- `MeshAttachment.setParentMesh(parentMesh)`: stores the parent reference
and, when it is non-null, aliases `bones`, `vertices`,
`worldVerticesLength`, `regionUVs`, `triangles`, and `hullLength` from the
parent object (passed as identity plus value). -/
def setParentMeshM (m : MeshM) (parent : Option (Nat × MeshM)) : MeshM :=
  match parent with
  | none => { m with parentMesh := none }
  | some (pid, pm) =>
    { m with
      parentMesh := some pid
      va := { m.va with
        bones := pm.va.bones
        vertices := pm.va.vertices
        worldVerticesLength := pm.va.worldVerticesLength }
      regionUVs := pm.regionUVs
      triangles := pm.triangles
      hullLength := pm.hullLength }

/-- `MeshAttachment.updateUVs()` at the reference level: throws (and leaves
every field of the receiver untouched) when `region` is null; otherwise
reallocates `uvs` only when its length differs from `regionUVs`'s and fills
it with the remapped values.  Result: (receiver state after the call,
allocation counter, thrown error if any). -/
def updateUVsM (m : MeshM) (ctr : Nat) : MeshM × Nat × Option String :=
  match m.region with
  | none => (m, ctr, some "Region not set.")
  | some r =>
    let filled := computeUVs r m.regionUVs.data
    if m.uvs.data.length = m.regionUVs.data.length then
      ({ m with uvs := ⟨m.uvs.ref, filled⟩ }, ctr, none)
    else
      ({ m with uvs := ⟨ctr, filled⟩ }, ctr + 1, none)

/-- `MeshAttachment.newLinkedMesh()`: a fresh mesh sharing this mesh's
`region` and `deformAttachment`, parented to `this.parentMesh` when set,
else to `this` itself, then `updateUVs()` (whose throw, for a null region,
propagates).  `lookup` resolves a parent identity to the parent object. -/
def newLinkedMeshM (lookup : Nat → MeshM) (m : MeshM) (ctr : Nat) :
    Except String (MeshM × Nat) :=
  match newMeshM m.name m.path ctr with
  | (copy0, c1) =>
    let copy1 := { copy0 with
      region := m.region
      va := { copy0.va with deformAttachment := m.va.deformAttachment } }
    let copy2 := setParentMeshM copy1 (some (match m.parentMesh with
      | some pid => (pid, lookup pid)
      | none => (m.selfId, m)))
    match updateUVsM copy2 c1 with
    | (copy3, c2, none) => .ok (copy3, c2)
    | (_, _, some e) => .error e

/-- `MeshAttachment.copy()`: degenerates to `newLinkedMesh()` when this is
a linked mesh; otherwise builds a fresh mesh, copies the region reference,
runs `copyTo`, and clones `regionUVs`, `uvs`, `triangles`, and `edges` into
fresh arrays with the same contents, copying `hullLength`, `width`, and
`height` by value. -/
def meshCopyM (lookup : Nat → MeshM) (m : MeshM) (ctr : Nat) :
    Except String (MeshM × Nat) :=
  match m.parentMesh with
  | some _ => newLinkedMeshM lookup m ctr
  | none =>
    match newMeshM m.name m.path ctr with
    | (copy0, c1) =>
      match copyToVA m.va c1 with
      | (va1, c2) =>
        .ok ({ copy0 with
          region := m.region
          va := va1
          regionUVs := ⟨c2, m.regionUVs.data⟩
          uvs := ⟨c2 + 1, m.uvs.data⟩
          triangles := ⟨c2 + 2, m.triangles.data⟩
          hullLength := m.hullLength
          edges := ⟨c2 + 3, m.edges.data⟩
          width := m.width
          height := m.height }, c2 + 4)

/-- A `BoundingBoxAttachment` object at the reference level. -/
structure BBoxM where
  va : VAFields
  selfId : Nat
  name : String
  color : ColorM
deriving DecidableEq

/-- `new BoundingBoxAttachment(name)`: fresh object with the inherited
field initializers (`bones = null`, fresh empty `vertices`,
`deformAttachment = this`). -/
def newBBoxM (name : String) (ctr : Nat) : BBoxM × Nat :=
  (⟨⟨none, ⟨ctr + 1, []⟩, 0, ctr⟩, ctr, name, ⟨1, 1, 1, 1⟩⟩, ctr + 2)

/-- `BoundingBoxAttachment.copy()`: a fresh bounding box, `copyTo`, and a
value copy of the color. -/
def bboxCopyM (b : BBoxM) (ctr : Nat) : BBoxM × Nat :=
  match newBBoxM b.name ctr with
  | (copy0, c1) =>
    match copyToVA b.va c1 with
    | (va1, c2) => ({ copy0 with va := va1, color := b.color }, c2)

/-- A `ClippingAttachment` object at the reference level; `endSlot` is a
nullable `SlotData` reference copied by reference in `copy()`. -/
structure ClippingM where
  va : VAFields
  selfId : Nat
  name : String
  endSlot : Option Nat
  color : ColorM
deriving DecidableEq

/-- `new ClippingAttachment(name)`. -/
def newClippingM (name : String) (ctr : Nat) : ClippingM × Nat :=
  (⟨⟨none, ⟨ctr + 1, []⟩, 0, ctr⟩, ctr, name, none, ⟨2275/10000, 2275/10000, 8078/10000, 1⟩⟩,
    ctr + 2)

/-- `ClippingAttachment.copy()`: fresh clipping attachment, `copyTo`, the
`endSlot` reference, and a value copy of the color. -/
def clippingCopyM (c : ClippingM) (ctr : Nat) : ClippingM × Nat :=
  match newClippingM c.name ctr with
  | (copy0, c1) =>
    match copyToVA c.va c1 with
    | (va1, c2) => ({ copy0 with va := va1, endSlot := c.endSlot, color := c.color }, c2)

/-! ## The `VertexAttachment` id counter -/

/-- `id = (VertexAttachment.nextID++ & 65535) << 11`: the id handed to the
`n`-th `VertexAttachment` constructed in a process (0-based), as a function
of the pre-increment counter value `n`. -/
def vaId (n : Nat) : Nat :=
  (n % 65536) * 2048

/-! # Theorems -/

/-- The linear name scan of the `find*` methods returns the first element
whose name equals the argument, i.e. agrees with `List.find?`. -/
theorem scanName_eq_find? {α : Type} (getName : α → String) (nm : String) (l : List α) :
    scanName getName nm l = l.find? (fun x => getName x == nm) := by
  induction l with
  | nil => rfl
  | cons x rest ih =>
    by_cases h : getName x = nm
    · simp [scanName, List.find?_cons, h]
    · simp [scanName, List.find?_cons, h, ih]

/-- The index scan of the `find*Index` methods returns the index of the
first matching element (via `List.findIdx?`) and `-1` when none matches. -/
theorem scanNameIdx_eq_findIdx? {α : Type} (getName : α → String) (nm : String) :
    ∀ (l : List α) (i : Nat),
      scanNameIdx getName nm l i =
        (match List.findIdx? (fun x => getName x == nm) l i with
         | some j => (j : Int)
         | none => -1)
  | [], _ => rfl
  | x :: rest, i => by
    rw [List.findIdx?_cons]
    by_cases h : getName x = nm
    · simp [scanNameIdx, h]
    · simp only [scanNameIdx, h, if_false, beq_iff_eq, if_neg h]
      exact scanNameIdx_eq_findIdx? getName nm rest (i + 1)

/-- C3: for every slot and every attachment reference `X`, `setAttachment(X)`
is a complete no-op when `X` is the very object currently attached, and
otherwise installs `X`, stamps the attachment time with the skeleton's
current time, and empties the deform buffer (all other slot state kept). -/
theorem claim_C3 (t : ℚ) (s : SlotM) (x : Option Nat) :
    (s.attachment = x → setAttachmentM t s x = s) ∧
    (s.attachment ≠ x →
      (setAttachmentM t s x).attachment = x ∧
      (setAttachmentM t s x).attachmentTime = t ∧
      (setAttachmentM t s x).deform = [] ∧
      (setAttachmentM t s x).data = s.data ∧
      (setAttachmentM t s x).color = s.color ∧
      (setAttachmentM t s x).darkColor = s.darkColor) := by
  constructor
  · intro h
    simp [setAttachmentM, h]
  · intro h
    simp [setAttachmentM, h]

/-- Witness for C3 at a concrete slot: re-setting the same attachment
object changes nothing; setting a different one resets time and deform. -/
theorem claim_C3_witness :
    (setAttachmentM 9 ⟨⟨0, "s", ⟨1, 1, 1, 1⟩, none, none⟩, ⟨1, 1, 1, 1⟩, none, some 1, 5, [2]⟩
        (some 1) =
      ⟨⟨0, "s", ⟨1, 1, 1, 1⟩, none, none⟩, ⟨1, 1, 1, 1⟩, none, some 1, 5, [2]⟩) ∧
    (setAttachmentM 9 ⟨⟨0, "s", ⟨1, 1, 1, 1⟩, none, none⟩, ⟨1, 1, 1, 1⟩, none, some 1, 5, [2]⟩
        (some 2)).attachment = some 2 ∧
    (setAttachmentM 9 ⟨⟨0, "s", ⟨1, 1, 1, 1⟩, none, none⟩, ⟨1, 1, 1, 1⟩, none, some 1, 5, [2]⟩
        (some 2)).attachmentTime = 9 ∧
    (setAttachmentM 9 ⟨⟨0, "s", ⟨1, 1, 1, 1⟩, none, none⟩, ⟨1, 1, 1, 1⟩, none, some 1, 5, [2]⟩
        (some 2)).deform = [] := by
  have h1 := (claim_C3 9 ⟨⟨0, "s", ⟨1, 1, 1, 1⟩, none, none⟩, ⟨1, 1, 1, 1⟩, none, some 1, 5, [2]⟩
    (some 1)).1 rfl
  have h2 := (claim_C3 9 ⟨⟨0, "s", ⟨1, 1, 1, 1⟩, none, none⟩, ⟨1, 1, 1, 1⟩, none, some 1, 5, [2]⟩
    (some 2)).2 (by decide)
  exact ⟨h1, h2.1, h2.2.1, h2.2.2.1⟩

/-- C6: every `SkeletonData` find-by-name lookup throws on a null name
argument; on a non-null name it returns the first element of its list
whose name equals the argument, null (`-1` for the index variants) when
none matches, and never throws. -/
theorem claim_C6 (sd : SkeletonDataM) (nm : String) :
    findBone sd none = .error "boneName cannot be null." ∧
    findBone sd (some nm) = .ok (sd.bones.find? (fun x => x.name == nm)) ∧
    findBoneIndex sd none = .error "boneName cannot be null." ∧
    findBoneIndex sd (some nm) =
      .ok (match sd.bones.findIdx? (fun x => x.name == nm) with
           | some j => (j : Int)
           | none => -1) ∧
    findSlot sd none = .error "slotName cannot be null." ∧
    findSlot sd (some nm) = .ok (sd.slots.find? (fun x => x.name == nm)) ∧
    findSlotIndex sd none = .error "slotName cannot be null." ∧
    findSlotIndex sd (some nm) =
      .ok (match sd.slots.findIdx? (fun x => x.name == nm) with
           | some j => (j : Int)
           | none => -1) ∧
    findSkin sd none = .error "skinName cannot be null." ∧
    findSkin sd (some nm) = .ok (sd.skins.find? (fun x => x.name == nm)) ∧
    findEvent sd none = .error "eventDataName cannot be null." ∧
    findEvent sd (some nm) = .ok (sd.events.find? (fun x => x.name == nm)) ∧
    findAnimation sd none = .error "animationName cannot be null." ∧
    findAnimation sd (some nm) = .ok (sd.animations.find? (fun x => x.name == nm)) ∧
    findIkConstraint sd none = .error "constraintName cannot be null." ∧
    findIkConstraint sd (some nm) = .ok (sd.ikConstraints.find? (fun x => x.name == nm)) ∧
    findTransformConstraint sd none = .error "constraintName cannot be null." ∧
    findTransformConstraint sd (some nm) =
      .ok (sd.transformConstraints.find? (fun x => x.name == nm)) ∧
    findPathConstraint sd none = .error "constraintName cannot be null." ∧
    findPathConstraint sd (some nm) =
      .ok (sd.pathConstraints.find? (fun x => x.name == nm)) ∧
    findPathConstraintIndex sd none = .error "pathConstraintName cannot be null." ∧
    findPathConstraintIndex sd (some nm) =
      .ok (match sd.pathConstraints.findIdx? (fun x => x.name == nm) with
           | some j => (j : Int)
           | none => -1) := by
  refine ⟨rfl, ?_, rfl, ?_, rfl, ?_, rfl, ?_, rfl, ?_, rfl, ?_, rfl, ?_, rfl, ?_, rfl, ?_,
    rfl, ?_, rfl, ?_⟩
  · simpa [findBone] using scanName_eq_find? BoneDataM.name nm sd.bones
  · simpa [findBoneIndex] using scanNameIdx_eq_findIdx? BoneDataM.name nm sd.bones 0
  · simpa [findSlot] using scanName_eq_find? SlotDataM.name nm sd.slots
  · simpa [findSlotIndex] using scanNameIdx_eq_findIdx? SlotDataM.name nm sd.slots 0
  · simpa [findSkin] using scanName_eq_find? SkinM.name nm sd.skins
  · simpa [findEvent] using scanName_eq_find? EventDataM.name nm sd.events
  · simpa [findAnimation] using scanName_eq_find? AnimationM.name nm sd.animations
  · simpa [findIkConstraint] using scanName_eq_find? IkConstraintDataM.name nm sd.ikConstraints
  · simpa [findTransformConstraint] using
      scanName_eq_find? TransformConstraintDataM.name nm sd.transformConstraints
  · simpa [findPathConstraint] using
      scanName_eq_find? PathConstraintDataM.name nm sd.pathConstraints
  · simpa [findPathConstraintIndex] using
      scanNameIdx_eq_findIdx? PathConstraintDataM.name nm sd.pathConstraints 0

/-- C7: reading `PathConstraintData.target` before a target has been
assigned throws, reading it after assignment returns the assigned slot,
and `MeshAttachment.updateUVs()` with a null region throws with the
receiver completely unchanged (the error precedes every mutation). -/
theorem claim_C7 (p : PathConstraintDataM) (s : SlotDataM) (m : MeshM) (ctr : Nat) :
    (p._target = none → p.getTarget = .error "SlotData not set.") ∧
    (∀ t, p._target = some t → p.getTarget = .ok t) ∧
    (p.setTarget s).getTarget = .ok s ∧
    (m.region = none → updateUVsM m ctr = (m, ctr, some "Region not set.")) := by
  refine ⟨?_, ?_, rfl, ?_⟩
  · intro h
    simp [PathConstraintDataM.getTarget, h]
  · intro t h
    simp [PathConstraintDataM.getTarget, h]
  · intro h
    simp [updateUVsM, h]

/-- Witness for C7: a fresh path-constraint data throws on `target`, returns
the slot after assignment, and a region-less mesh throws on `updateUVs`
leaving its state untouched. -/
theorem claim_C7_witness :
    PathConstraintDataM.getTarget ⟨"pc", none⟩ = .error "SlotData not set." ∧
    (PathConstraintDataM.setTarget ⟨"pc", none⟩ ⟨3, "sl", ⟨1, 1, 1, 1⟩, none, none⟩).getTarget =
      .ok ⟨3, "sl", ⟨1, 1, 1, 1⟩, none, none⟩ ∧
    updateUVsM ⟨⟨none, ⟨1, []⟩, 0, 0⟩, 0, "m", "m.png", none, ⟨2, []⟩, ⟨3, []⟩, ⟨4, []⟩,
        ⟨5, []⟩, 0, 0, 0, none⟩ 6 =
      (⟨⟨none, ⟨1, []⟩, 0, 0⟩, 0, "m", "m.png", none, ⟨2, []⟩, ⟨3, []⟩, ⟨4, []⟩,
        ⟨5, []⟩, 0, 0, 0, none⟩, 6, some "Region not set.") := by
  have h := claim_C7 ⟨"pc", none⟩ ⟨3, "sl", ⟨1, 1, 1, 1⟩, none, none⟩
    ⟨⟨none, ⟨1, []⟩, 0, 0⟩, 0, "m", "m.png", none, ⟨2, []⟩, ⟨3, []⟩, ⟨4, []⟩,
      ⟨5, []⟩, 0, 0, 0, none⟩ 6
  exact ⟨h.1 rfl, h.2.2.1, h.2.2.2 rfl⟩

/-- C8 counterexample: the id assigned to the `n`-th constructed
`VertexAttachment` is `(n & 65535) << 11`, so construction 65536 receives
the same id as construction 0 — ids are neither unique nor strictly
increasing across the whole process. -/
theorem claim_C8_counterexample :
    (0 : Nat) < 65536 ∧ vaId 65536 = vaId 0 ∧ ¬ vaId 0 < vaId 65536 := by
  decide

/-- C8 amended: among the first 65536 `VertexAttachment` constructions the
assigned ids are strictly increasing (hence pairwise distinct); the
counter is masked to 16 bits, so from construction 65536 on the ids repeat. -/
theorem claim_C8 (m n : Nat) (hmn : m < n) (hn : n < 65536) : vaId m < vaId n := by
  unfold vaId
  rw [Nat.mod_eq_of_lt (lt_trans hmn hn), Nat.mod_eq_of_lt hn]
  omega

/-- Witness for the amended C8 at constructions 3 and 7. -/
theorem claim_C8_witness : 3 < 7 ∧ 7 < 65536 ∧ vaId 3 < vaId 7 :=
  ⟨by decide, by decide, claim_C8 3 7 (by decide) (by decide)⟩

/-- C10: `copyTo` transplants the `deformAttachment` object reference
as is — so every vertex-attachment `copy()` (mesh, bounding box, clipping)
gives the copy the same `deformAttachment` reference as the source, and
copying an attachment whose `deformAttachment` is itself (the default)
yields a copy still pointing at the original object, not at the copy. -/
theorem claim_C10 (src : VAFields) (ctr : Nat) (b : BBoxM) (cl : ClippingM)
    (lookup : Nat → MeshM) (m : MeshM) :
    (copyToVA src ctr).1.deformAttachment = src.deformAttachment ∧
    (bboxCopyM b ctr).1.va.deformAttachment = b.va.deformAttachment ∧
    (clippingCopyM cl ctr).1.va.deformAttachment = cl.va.deformAttachment ∧
    (m.parentMesh = none →
      (exceptGet (meshCopyM lookup m ctr)).1.va.deformAttachment = m.va.deformAttachment) ∧
    (b.va.deformAttachment = b.selfId →
      (bboxCopyM b ctr).1.va.deformAttachment = b.selfId ∧
      (b.selfId ≠ ctr →
        (bboxCopyM b ctr).1.va.deformAttachment ≠ (bboxCopyM b ctr).1.selfId)) := by
  have hcopy : ∀ (s : VAFields) (c : Nat), (copyToVA s c).1.deformAttachment =
      s.deformAttachment := by
    intro s c
    cases h : s.bones <;> simp [copyToVA, h]
  have hbbox : (bboxCopyM b ctr).1.va.deformAttachment = b.va.deformAttachment := by
    simp [bboxCopyM, newBBoxM, hcopy]
  have hbboxId : (bboxCopyM b ctr).1.selfId = ctr := by
    simp [bboxCopyM, newBBoxM]
  refine ⟨hcopy src ctr, hbbox, ?_, ?_, ?_⟩
  · simp [clippingCopyM, newClippingM, hcopy]
  · intro h
    simp [meshCopyM, h, newMeshM, exceptGet, hcopy]
  · intro h
    refine ⟨by rw [hbbox, h], ?_⟩
    intro hne
    rw [hbbox, h, hbboxId]
    exact hne

/-- Witness for C10: a bounding box whose `deformAttachment` is itself
(object 0) copied under allocation counter 10 yields a copy whose
`deformAttachment` is still object 0, not the copy (object 10). -/
theorem claim_C10_witness :
    (bboxCopyM ⟨⟨none, ⟨1, []⟩, 0, 0⟩, 0, "bb", ⟨1, 1, 1, 1⟩⟩ 10).1.va.deformAttachment = 0 ∧
    (bboxCopyM ⟨⟨none, ⟨1, []⟩, 0, 0⟩, 0, "bb", ⟨1, 1, 1, 1⟩⟩ 10).1.va.deformAttachment ≠
      (bboxCopyM ⟨⟨none, ⟨1, []⟩, 0, 0⟩, 0, "bb", ⟨1, 1, 1, 1⟩⟩ 10).1.selfId := by
  have h := (claim_C10 ⟨none, ⟨1, []⟩, 0, 0⟩ 10 ⟨⟨none, ⟨1, []⟩, 0, 0⟩, 0, "bb", ⟨1, 1, 1, 1⟩⟩
    ⟨⟨none, ⟨1, []⟩, 0, 0⟩, 0, "cl", none, ⟨1, 1, 1, 1⟩⟩ (fun _ => default) default).2.2.2.2 rfl
  exact ⟨h.1, h.2 (by decide)⟩

/-- C9: `setToSetupPose()` resets the tint colors from the blueprint and
re-derives the attachment from the blueprint's setup attachment name via
index-plus-name lookup; because the current attachment is nulled before
`setAttachment` is invoked, whenever the lookup yields an attachment the
time stamp is reset and the deform buffer emptied — even when that
attachment is the very object that was current before the call. -/
theorem claim_C9 (t : ℚ) (getAtt : Nat → String → Option Nat) (s : SlotM) :
    (setToSetupPoseM t getAtt s).color = s.data.color ∧
    (∀ dc0 dc, s.darkColor = some dc0 → s.data.darkColor = some dc →
      (setToSetupPoseM t getAtt s).darkColor = some dc) ∧
    (setToSetupPoseM t getAtt s).attachment =
      s.data.attachmentName.bind (getAtt s.data.index) ∧
    (∀ nm x, s.data.attachmentName = some nm → getAtt s.data.index nm = some x →
      (setToSetupPoseM t getAtt s).attachment = some x ∧
      (setToSetupPoseM t getAtt s).attachmentTime = t ∧
      (setToSetupPoseM t getAtt s).deform = []) := by
  cases hn : s.data.attachmentName with
  | none =>
    refine ⟨by simp [setToSetupPoseM, hn], ?_, by simp [setToSetupPoseM, hn], ?_⟩
    · intro dc0 dc h0 h1
      simp [setToSetupPoseM, hn, h0, h1]
    · intro nm x hnm
      exact absurd hnm (by simp)
  | some nm =>
    cases hg : getAtt s.data.index nm with
    | none =>
      refine ⟨by simp [setToSetupPoseM, setAttachmentM, hn, hg], ?_,
        by simp [setToSetupPoseM, setAttachmentM, hn, hg], ?_⟩
      · intro dc0 dc h0 h1
        simp [setToSetupPoseM, setAttachmentM, hn, hg, h0, h1]
      · intro nm' x hnm hx
        cases hnm
        rw [hg] at hx
        exact absurd hx (by simp)
    | some a =>
      refine ⟨by simp [setToSetupPoseM, setAttachmentM, hn, hg], ?_,
        by simp [setToSetupPoseM, setAttachmentM, hn, hg], ?_⟩
      · intro dc0 dc h0 h1
        simp [setToSetupPoseM, setAttachmentM, hn, hg, h0, h1]
      · intro nm' x hnm hx
        cases hnm
        rw [hg] at hx
        cases hx
        exact ⟨by simp [setToSetupPoseM, setAttachmentM, hn, hg],
          by simp [setToSetupPoseM, setAttachmentM, hn, hg],
          by simp [setToSetupPoseM, setAttachmentM, hn, hg]⟩

/-- Witness for C9: a slot currently holding attachment object 7 with a
non-empty deform buffer, whose setup lookup returns the very same object 7:
after `setToSetupPose` the time stamp is reset and the deform emptied. -/
theorem claim_C9_witness :
    (setToSetupPoseM 9 (fun _ _ => some 7)
      ⟨⟨2, "s", ⟨1, 0, 0, 1⟩, none, some "a"⟩, ⟨0, 0, 0, 0⟩, none, some 7, 5, [3]⟩).attachment =
        some 7 ∧
    (setToSetupPoseM 9 (fun _ _ => some 7)
      ⟨⟨2, "s", ⟨1, 0, 0, 1⟩, none, some "a"⟩, ⟨0, 0, 0, 0⟩, none, some 7, 5, [3]⟩).attachmentTime =
        9 ∧
    (setToSetupPoseM 9 (fun _ _ => some 7)
      ⟨⟨2, "s", ⟨1, 0, 0, 1⟩, none, some "a"⟩, ⟨0, 0, 0, 0⟩, none, some 7, 5, [3]⟩).deform = [] ∧
    (setToSetupPoseM 9 (fun _ _ => some 7)
      ⟨⟨2, "s", ⟨1, 0, 0, 1⟩, none, some "a"⟩, ⟨0, 0, 0, 0⟩, none, some 7, 5, [3]⟩).color =
        ⟨1, 0, 0, 1⟩ := by
  have h := claim_C9 9 (fun _ _ => some 7)
    ⟨⟨2, "s", ⟨1, 0, 0, 1⟩, none, some "a"⟩, ⟨0, 0, 0, 0⟩, none, some 7, 5, [3]⟩
  have h4 := h.2.2.2 "a" 7 rfl rfl
  exact ⟨h4.1, h4.2.1, h4.2.2, h.1⟩

/-- C2: a single-bone-weighted vertex with weight 1.0 and an empty deform
buffer is transformed to exactly the same world coordinates as the same
local vertex under the unweighted path with the same bone — for every
bone transform, every local pair, and every output offset and stride. -/
theorem claim_C2 (bone : BoneTransform) (x y : ℚ) (out : Nat → ℚ) (offset stride : Nat) :
    computeWorldVertices ⟨some [1, 0], [x, y, 1], 2⟩ ⟨bone, [bone], []⟩ 0 2 out offset stride =
      computeWorldVertices ⟨none, [x, y], 2⟩ ⟨bone, [], []⟩ 0 2 out offset stride := by
  have h1 : computeWorldVertices ⟨some [1, 0], [x, y, 1], 2⟩ ⟨bone, [bone], []⟩ 0 2 out
      offset stride =
      (if offset < offset + 1 * stride then
        Function.update
          (Function.update out offset (0 + (x * bone.a + y * bone.b + bone.worldX) * 1))
          (offset + 1) (0 + (x * bone.c + y * bone.d + bone.worldY) * 1)
      else out) := rfl
  have h2 : computeWorldVertices ⟨none, [x, y], 2⟩ ⟨bone, [], []⟩ 0 2 out offset stride =
      (if offset < offset + 1 * stride then
        Function.update (Function.update out offset (x * bone.a + y * bone.b + bone.worldX))
          (offset + 1) (x * bone.c + y * bone.d + bone.worldY)
      else out) := rfl
  rw [h1, h2]
  simp only [zero_add, mul_one]

/-- Pairwise reading of the 90-degree remap: output pair `k` is
`(u + in[2k+1]*w, v + (1 - in[2k])*h)`. -/
theorem remap90_getD (u v w h : ℚ) :
    ∀ (l : List ℚ) (k : Nat), 2 * k + 1 < l.length →
      (remap90 u v w h l).getD (2 * k) 0 = u + l.getD (2 * k + 1) 0 * w ∧
      (remap90 u v w h l).getD (2 * k + 1) 0 = v + (1 - l.getD (2 * k) 0) * h
  | [], k, hk => by simp at hk
  | [x], k, hk => by
    simp only [List.length_singleton] at hk
    omega
  | x :: y :: rest, 0, _ => by simp [remap90]
  | x :: y :: rest, k + 1, hk => by
    have hk' : 2 * k + 1 < rest.length := by
      simp only [List.length_cons] at hk
      omega
    have ih := remap90_getD u v w h rest k hk'
    have hr : remap90 u v w h (x :: y :: rest) =
        (u + y * w) :: (v + (1 - x) * h) :: remap90 u v w h rest := rfl
    have e1 : 2 * (k + 1) = 2 * k + 1 + 1 := by ring
    rw [hr, e1]
    simp only [List.getD_cons_succ]
    exact ⟨ih.1, ih.2⟩

/-- For a non-null region, `updateUVs` returns normally and fills `uvs`
with the remapped values. -/
theorem updateUVsM_uvs_data (m : MeshM) (ctr : Nat) (r : RegionM) (h : m.region = some r) :
    (updateUVsM m ctr).1.uvs.data = computeUVs r m.regionUVs.data ∧
    (updateUVsM m ctr).2.2 = none := by
  simp only [updateUVsM, h]
  split <;> simp

/-- C5: for a mesh whose region is an atlas region rotated 90 degrees,
`updateUVs()` returns normally and writes, for every vertex pair `k`,
`uvs[2k] = u' + regionUVs[2k+1] * width'` and
`uvs[2k+1] = v' + (1 - regionUVs[2k]) * height'`, with
`width' = originalHeight/textureWidth`, `height' = originalWidth/textureHeight`
and `u', v'` the offset-adjusted region origin — the output u depends only
on the input v and the output v only on `1 -` input u; moreover the
0/90/180/270-degree cases apply four pairwise different remap formulas. -/
theorem claim_C5 (m : MeshM) (ctr : Nat) (r : RegionM)
    (hr : m.region = some r) (ha : r.isAtlas = true) (hd : r.degrees = 90) :
    (updateUVsM m ctr).2.2 = none ∧
    (∀ k, 2 * k + 1 < m.regionUVs.data.length →
      (updateUVsM m ctr).1.uvs.data.getD (2 * k) 0 =
        (r.u - (r.originalHeight - r.offsetY - r.height) / r.texWidth) +
          m.regionUVs.data.getD (2 * k + 1) 0 * (r.originalHeight / r.texWidth) ∧
      (updateUVsM m ctr).1.uvs.data.getD (2 * k + 1) 0 =
        (r.v - (r.originalWidth - r.offsetX - r.width) / r.texHeight) +
          (1 - m.regionUVs.data.getD (2 * k) 0) * (r.originalWidth / r.texHeight)) ∧
    (remapPlain 0 0 1 1 [3, 5] = [3, 5] ∧ remap90 0 0 1 1 [3, 5] = [5, -2] ∧
      remap180 0 0 1 1 [3, 5] = [-2, -4] ∧ remap270 0 0 1 1 [3, 5] = [-4, 3] ∧
      (remapPlain 0 0 1 1 [3, 5]).getD 0 0 ≠ (remap90 0 0 1 1 [3, 5]).getD 0 0 ∧
      (remapPlain 0 0 1 1 [3, 5]).getD 0 0 ≠ (remap180 0 0 1 1 [3, 5]).getD 0 0 ∧
      (remapPlain 0 0 1 1 [3, 5]).getD 0 0 ≠ (remap270 0 0 1 1 [3, 5]).getD 0 0 ∧
      (remap90 0 0 1 1 [3, 5]).getD 0 0 ≠ (remap180 0 0 1 1 [3, 5]).getD 0 0 ∧
      (remap90 0 0 1 1 [3, 5]).getD 0 0 ≠ (remap270 0 0 1 1 [3, 5]).getD 0 0 ∧
      (remap180 0 0 1 1 [3, 5]).getD 0 0 ≠ (remap270 0 0 1 1 [3, 5]).getD 0 0) := by
  obtain ⟨hdata, hok⟩ := updateUVsM_uvs_data m ctr r hr
  refine ⟨hok, ?_, ?_⟩
  · intro k hk
    rw [hdata]
    have hc : computeUVs r m.regionUVs.data =
        remap90 (r.u - (r.originalHeight - r.offsetY - r.height) / r.texWidth)
          (r.v - (r.originalWidth - r.offsetX - r.width) / r.texHeight)
          (r.originalHeight / r.texWidth) (r.originalWidth / r.texHeight)
          m.regionUVs.data := by
      simp [computeUVs, ha, hd]
    rw [hc]
    exact remap90_getD _ _ _ _ m.regionUVs.data k hk
  · refine ⟨by norm_num [remapPlain], by norm_num [remap90], by norm_num [remap180],
      by norm_num [remap270], ?_, ?_, ?_, ?_, ?_, ?_⟩ <;>
      norm_num [remapPlain, remap90, remap180, remap270]

/-- Witness for C5: a concrete 90-degree atlas region (2×2 texture, 1×1
region at the origin) and corner UVs `(1, 1)` remap to `(1/2, 0)`. -/
theorem claim_C5_witness :
    (updateUVsM ⟨⟨none, ⟨1, []⟩, 0, 0⟩, 0, "m", "m.png",
        some ⟨0, 0, 1, 1, true, 90, 0, 0, 1, 1, 1, 1, 2, 2⟩,
        ⟨2, [1, 1]⟩, ⟨3, []⟩, ⟨4, []⟩, ⟨5, []⟩, 0, 0, 0, none⟩ 50).2.2 = none ∧
    (updateUVsM ⟨⟨none, ⟨1, []⟩, 0, 0⟩, 0, "m", "m.png",
        some ⟨0, 0, 1, 1, true, 90, 0, 0, 1, 1, 1, 1, 2, 2⟩,
        ⟨2, [1, 1]⟩, ⟨3, []⟩, ⟨4, []⟩, ⟨5, []⟩, 0, 0, 0, none⟩ 50).1.uvs.data.getD 0 0 =
      1 / 2 ∧
    (updateUVsM ⟨⟨none, ⟨1, []⟩, 0, 0⟩, 0, "m", "m.png",
        some ⟨0, 0, 1, 1, true, 90, 0, 0, 1, 1, 1, 1, 2, 2⟩,
        ⟨2, [1, 1]⟩, ⟨3, []⟩, ⟨4, []⟩, ⟨5, []⟩, 0, 0, 0, none⟩ 50).1.uvs.data.getD 1 0 = 0 := by
  have h := claim_C5 ⟨⟨none, ⟨1, []⟩, 0, 0⟩, 0, "m", "m.png",
    some ⟨0, 0, 1, 1, true, 90, 0, 0, 1, 1, 1, 1, 2, 2⟩,
    ⟨2, [1, 1]⟩, ⟨3, []⟩, ⟨4, []⟩, ⟨5, []⟩, 0, 0, 0, none⟩ 50
    ⟨0, 0, 1, 1, true, 90, 0, 0, 1, 1, 1, 1, 2, 2⟩ rfl rfl rfl
  have hk := h.2.1 0 (by norm_num)
  refine ⟨h.1, ?_, ?_⟩
  · have := hk.1
    norm_num at this ⊢
    exact this
  · have := hk.2
    norm_num at this ⊢
    exact this

/-- C4: `setParentMesh` makes a linked mesh alias `bones`, `vertices`,
`regionUVs`, `triangles`, `hullLength`, and `worldVerticesLength` from its
parent (reference equality of the array values); `copy()` on a linked mesh
produces another linked mesh whose `parentMesh` is the same parent object
and whose shared fields alias that parent, not a deep clone; `copy()` on a
non-linked mesh deep-copies `regionUVs`, `uvs`, `triangles`, `vertices`,
and `bones` into fresh, content-equal, independent buffers. -/
theorem claim_C4 (p : MeshM) (pid : Nat) (lookup : Nat → MeshM) (m : MeshM) (ctr : Nat) :
    ((setParentMeshM m (some (pid, p))).va.bones = p.va.bones ∧
      (setParentMeshM m (some (pid, p))).va.vertices = p.va.vertices ∧
      (setParentMeshM m (some (pid, p))).regionUVs = p.regionUVs ∧
      (setParentMeshM m (some (pid, p))).triangles = p.triangles ∧
      (setParentMeshM m (some (pid, p))).hullLength = p.hullLength ∧
      (setParentMeshM m (some (pid, p))).va.worldVerticesLength = p.va.worldVerticesLength ∧
      (setParentMeshM m (some (pid, p))).parentMesh = some pid) ∧
    (∀ r, m.parentMesh = some pid → m.region = some r →
      exceptOk (meshCopyM lookup m ctr) = true ∧
      (exceptGet (meshCopyM lookup m ctr)).1.parentMesh = some pid ∧
      (exceptGet (meshCopyM lookup m ctr)).1.va.bones = (lookup pid).va.bones ∧
      (exceptGet (meshCopyM lookup m ctr)).1.va.vertices = (lookup pid).va.vertices ∧
      (exceptGet (meshCopyM lookup m ctr)).1.regionUVs = (lookup pid).regionUVs ∧
      (exceptGet (meshCopyM lookup m ctr)).1.triangles = (lookup pid).triangles ∧
      (exceptGet (meshCopyM lookup m ctr)).1.hullLength = (lookup pid).hullLength ∧
      (exceptGet (meshCopyM lookup m ctr)).1.va.worldVerticesLength =
        (lookup pid).va.worldVerticesLength) ∧
    (m.parentMesh = none →
      exceptOk (meshCopyM lookup m ctr) = true ∧
      (exceptGet (meshCopyM lookup m ctr)).1.parentMesh = none ∧
      (exceptGet (meshCopyM lookup m ctr)).1.regionUVs.data = m.regionUVs.data ∧
      (exceptGet (meshCopyM lookup m ctr)).1.uvs.data = m.uvs.data ∧
      (exceptGet (meshCopyM lookup m ctr)).1.triangles.data = m.triangles.data ∧
      (exceptGet (meshCopyM lookup m ctr)).1.va.vertices.data = m.va.vertices.data ∧
      (m.regionUVs.ref < ctr →
        (exceptGet (meshCopyM lookup m ctr)).1.regionUVs.ref ≠ m.regionUVs.ref) ∧
      (m.uvs.ref < ctr →
        (exceptGet (meshCopyM lookup m ctr)).1.uvs.ref ≠ m.uvs.ref) ∧
      (m.triangles.ref < ctr →
        (exceptGet (meshCopyM lookup m ctr)).1.triangles.ref ≠ m.triangles.ref) ∧
      (m.va.vertices.ref < ctr →
        (exceptGet (meshCopyM lookup m ctr)).1.va.vertices.ref ≠ m.va.vertices.ref) ∧
      (m.va.bones = none → (exceptGet (meshCopyM lookup m ctr)).1.va.bones = none) ∧
      (∀ bn, m.va.bones = some bn →
        ∃ bn2, (exceptGet (meshCopyM lookup m ctr)).1.va.bones = some bn2 ∧
          bn2.data = bn.data ∧ (bn.ref < ctr → bn2.ref ≠ bn.ref))) := by
  refine ⟨⟨rfl, rfl, rfl, rfl, rfl, rfl, rfl⟩, ?_, ?_⟩
  · intro r hpm hr
    simp only [meshCopyM, hpm, newLinkedMeshM, newMeshM, setParentMeshM, updateUVsM, hr]
    split
    · rename_i copy3 c2 heq
      split at heq <;>
      · injection heq with h1 h2
        subst h1
        simp [exceptOk, exceptGet]
    · rename_i a b e heq
      split at heq <;>
      · injection heq with h1 h2
        injection h2 with h3 h4
        exact Option.noConfusion h4
  · intro hpm
    cases hb : m.va.bones with
    | none =>
      refine ⟨?_, ?_, ?_, ?_, ?_, ?_, ?_, ?_, ?_, ?_, ?_, ?_⟩ <;>
        simp [meshCopyM, hpm, newMeshM, copyToVA, hb, exceptOk, exceptGet] <;> omega
    | some bn =>
      refine ⟨?_, ?_, ?_, ?_, ?_, ?_, ?_, ?_, ?_, ?_, ?_, ?_⟩
      · simp [meshCopyM, hpm, newMeshM, copyToVA, hb, exceptOk]
      · simp [meshCopyM, hpm, newMeshM, copyToVA, hb, exceptGet]
      · simp [meshCopyM, hpm, newMeshM, copyToVA, hb, exceptGet]
      · simp [meshCopyM, hpm, newMeshM, copyToVA, hb, exceptGet]
      · simp [meshCopyM, hpm, newMeshM, copyToVA, hb, exceptGet]
      · simp [meshCopyM, hpm, newMeshM, copyToVA, hb, exceptGet]
      · intro h
        simp [meshCopyM, hpm, newMeshM, copyToVA, hb, exceptGet]
        omega
      · intro h
        simp [meshCopyM, hpm, newMeshM, copyToVA, hb, exceptGet]
        omega
      · intro h
        simp [meshCopyM, hpm, newMeshM, copyToVA, hb, exceptGet]
        omega
      · intro h
        simp [meshCopyM, hpm, newMeshM, copyToVA, hb, exceptGet]
        omega
      · intro h
        exact Option.noConfusion h
      · intro bn2 hbn2
        injection hbn2 with h
        subst h
        refine ⟨⟨ctr + 6, bn.data⟩, ?_, rfl, ?_⟩
        · simp [meshCopyM, hpm, newMeshM, copyToVA, hb, exceptGet]
        · intro hlt
          show ctr + 6 ≠ bn.ref
          omega

/-- Witness for C4: copying a concrete linked mesh (parent object 50)
yields another linked mesh with the same parent, aliasing the parent's
buffers; copying the concrete non-linked parent itself yields content-equal
buffers with fresh identities. -/
theorem claim_C4_witness :
    exceptOk (meshCopyM
      (fun _ => (⟨⟨some ⟨100, [1, 0]⟩, ⟨101, [3, 4, 1]⟩, 2, 50⟩, 50, "p", "p.png",
        some ⟨0, 0, 1, 1, false, 0, 0, 0, 0, 0, 0, 0, 1, 1⟩, ⟨102, [1, 1]⟩, ⟨103, [0, 0]⟩,
        ⟨104, [0, 1, 2]⟩, ⟨105, []⟩, 0, 0, 3, none⟩ : MeshM))
      (⟨⟨some ⟨100, [1, 0]⟩, ⟨101, [3, 4, 1]⟩, 2, 60⟩, 60, "l", "l.png",
        some ⟨0, 0, 1, 1, false, 0, 0, 0, 0, 0, 0, 0, 1, 1⟩, ⟨102, [1, 1]⟩, ⟨110, []⟩,
        ⟨104, [0, 1, 2]⟩, ⟨111, []⟩, 0, 0, 3, some 50⟩ : MeshM) 200) = true ∧
    (exceptGet (meshCopyM
      (fun _ => (⟨⟨some ⟨100, [1, 0]⟩, ⟨101, [3, 4, 1]⟩, 2, 50⟩, 50, "p", "p.png",
        some ⟨0, 0, 1, 1, false, 0, 0, 0, 0, 0, 0, 0, 1, 1⟩, ⟨102, [1, 1]⟩, ⟨103, [0, 0]⟩,
        ⟨104, [0, 1, 2]⟩, ⟨105, []⟩, 0, 0, 3, none⟩ : MeshM))
      (⟨⟨some ⟨100, [1, 0]⟩, ⟨101, [3, 4, 1]⟩, 2, 60⟩, 60, "l", "l.png",
        some ⟨0, 0, 1, 1, false, 0, 0, 0, 0, 0, 0, 0, 1, 1⟩, ⟨102, [1, 1]⟩, ⟨110, []⟩,
        ⟨104, [0, 1, 2]⟩, ⟨111, []⟩, 0, 0, 3, some 50⟩ : MeshM) 200)).1.parentMesh =
      some 50 ∧
    (exceptGet (meshCopyM
      (fun _ => (⟨⟨some ⟨100, [1, 0]⟩, ⟨101, [3, 4, 1]⟩, 2, 50⟩, 50, "p", "p.png",
        some ⟨0, 0, 1, 1, false, 0, 0, 0, 0, 0, 0, 0, 1, 1⟩, ⟨102, [1, 1]⟩, ⟨103, [0, 0]⟩,
        ⟨104, [0, 1, 2]⟩, ⟨105, []⟩, 0, 0, 3, none⟩ : MeshM))
      (⟨⟨some ⟨100, [1, 0]⟩, ⟨101, [3, 4, 1]⟩, 2, 60⟩, 60, "l", "l.png",
        some ⟨0, 0, 1, 1, false, 0, 0, 0, 0, 0, 0, 0, 1, 1⟩, ⟨102, [1, 1]⟩, ⟨110, []⟩,
        ⟨104, [0, 1, 2]⟩, ⟨111, []⟩, 0, 0, 3, some 50⟩ : MeshM) 200)).1.regionUVs =
      ⟨102, [1, 1]⟩ ∧
    (exceptGet (meshCopyM
      (fun _ => (⟨⟨some ⟨100, [1, 0]⟩, ⟨101, [3, 4, 1]⟩, 2, 50⟩, 50, "p", "p.png",
        some ⟨0, 0, 1, 1, false, 0, 0, 0, 0, 0, 0, 0, 1, 1⟩, ⟨102, [1, 1]⟩, ⟨103, [0, 0]⟩,
        ⟨104, [0, 1, 2]⟩, ⟨105, []⟩, 0, 0, 3, none⟩ : MeshM))
      (⟨⟨some ⟨100, [1, 0]⟩, ⟨101, [3, 4, 1]⟩, 2, 60⟩, 60, "l", "l.png",
        some ⟨0, 0, 1, 1, false, 0, 0, 0, 0, 0, 0, 0, 1, 1⟩, ⟨102, [1, 1]⟩, ⟨110, []⟩,
        ⟨104, [0, 1, 2]⟩, ⟨111, []⟩, 0, 0, 3, some 50⟩ : MeshM) 200)).1.va.vertices =
      ⟨101, [3, 4, 1]⟩ ∧
    (exceptGet (meshCopyM
      (fun _ => (⟨⟨some ⟨100, [1, 0]⟩, ⟨101, [3, 4, 1]⟩, 2, 50⟩, 50, "p", "p.png",
        some ⟨0, 0, 1, 1, false, 0, 0, 0, 0, 0, 0, 0, 1, 1⟩, ⟨102, [1, 1]⟩, ⟨103, [0, 0]⟩,
        ⟨104, [0, 1, 2]⟩, ⟨105, []⟩, 0, 0, 3, none⟩ : MeshM))
      (⟨⟨some ⟨100, [1, 0]⟩, ⟨101, [3, 4, 1]⟩, 2, 50⟩, 50, "p", "p.png",
        some ⟨0, 0, 1, 1, false, 0, 0, 0, 0, 0, 0, 0, 1, 1⟩, ⟨102, [1, 1]⟩, ⟨103, [0, 0]⟩,
        ⟨104, [0, 1, 2]⟩, ⟨105, []⟩, 0, 0, 3, none⟩ : MeshM) 200)).1.regionUVs.data =
      [1, 1] ∧
    (exceptGet (meshCopyM
      (fun _ => (⟨⟨some ⟨100, [1, 0]⟩, ⟨101, [3, 4, 1]⟩, 2, 50⟩, 50, "p", "p.png",
        some ⟨0, 0, 1, 1, false, 0, 0, 0, 0, 0, 0, 0, 1, 1⟩, ⟨102, [1, 1]⟩, ⟨103, [0, 0]⟩,
        ⟨104, [0, 1, 2]⟩, ⟨105, []⟩, 0, 0, 3, none⟩ : MeshM))
      (⟨⟨some ⟨100, [1, 0]⟩, ⟨101, [3, 4, 1]⟩, 2, 50⟩, 50, "p", "p.png",
        some ⟨0, 0, 1, 1, false, 0, 0, 0, 0, 0, 0, 0, 1, 1⟩, ⟨102, [1, 1]⟩, ⟨103, [0, 0]⟩,
        ⟨104, [0, 1, 2]⟩, ⟨105, []⟩, 0, 0, 3, none⟩ : MeshM) 200)).1.regionUVs.ref ≠ 102 ∧
    (exceptGet (meshCopyM
      (fun _ => (⟨⟨some ⟨100, [1, 0]⟩, ⟨101, [3, 4, 1]⟩, 2, 50⟩, 50, "p", "p.png",
        some ⟨0, 0, 1, 1, false, 0, 0, 0, 0, 0, 0, 0, 1, 1⟩, ⟨102, [1, 1]⟩, ⟨103, [0, 0]⟩,
        ⟨104, [0, 1, 2]⟩, ⟨105, []⟩, 0, 0, 3, none⟩ : MeshM))
      (⟨⟨some ⟨100, [1, 0]⟩, ⟨101, [3, 4, 1]⟩, 2, 50⟩, 50, "p", "p.png",
        some ⟨0, 0, 1, 1, false, 0, 0, 0, 0, 0, 0, 0, 1, 1⟩, ⟨102, [1, 1]⟩, ⟨103, [0, 0]⟩,
        ⟨104, [0, 1, 2]⟩, ⟨105, []⟩, 0, 0, 3, none⟩ : MeshM) 200)).1.va.vertices.ref ≠
      101 := by
  have hb := (claim_C4
    ⟨⟨some ⟨100, [1, 0]⟩, ⟨101, [3, 4, 1]⟩, 2, 50⟩, 50, "p", "p.png",
      some ⟨0, 0, 1, 1, false, 0, 0, 0, 0, 0, 0, 0, 1, 1⟩, ⟨102, [1, 1]⟩, ⟨103, [0, 0]⟩,
      ⟨104, [0, 1, 2]⟩, ⟨105, []⟩, 0, 0, 3, none⟩ 50
    (fun _ => ⟨⟨some ⟨100, [1, 0]⟩, ⟨101, [3, 4, 1]⟩, 2, 50⟩, 50, "p", "p.png",
      some ⟨0, 0, 1, 1, false, 0, 0, 0, 0, 0, 0, 0, 1, 1⟩, ⟨102, [1, 1]⟩, ⟨103, [0, 0]⟩,
      ⟨104, [0, 1, 2]⟩, ⟨105, []⟩, 0, 0, 3, none⟩)
    ⟨⟨some ⟨100, [1, 0]⟩, ⟨101, [3, 4, 1]⟩, 2, 60⟩, 60, "l", "l.png",
      some ⟨0, 0, 1, 1, false, 0, 0, 0, 0, 0, 0, 0, 1, 1⟩, ⟨102, [1, 1]⟩, ⟨110, []⟩,
      ⟨104, [0, 1, 2]⟩, ⟨111, []⟩, 0, 0, 3, some 50⟩ 200).2.1
    ⟨0, 0, 1, 1, false, 0, 0, 0, 0, 0, 0, 0, 1, 1⟩ rfl rfl
  have hc := (claim_C4
    ⟨⟨some ⟨100, [1, 0]⟩, ⟨101, [3, 4, 1]⟩, 2, 50⟩, 50, "p", "p.png",
      some ⟨0, 0, 1, 1, false, 0, 0, 0, 0, 0, 0, 0, 1, 1⟩, ⟨102, [1, 1]⟩, ⟨103, [0, 0]⟩,
      ⟨104, [0, 1, 2]⟩, ⟨105, []⟩, 0, 0, 3, none⟩ 50
    (fun _ => ⟨⟨some ⟨100, [1, 0]⟩, ⟨101, [3, 4, 1]⟩, 2, 50⟩, 50, "p", "p.png",
      some ⟨0, 0, 1, 1, false, 0, 0, 0, 0, 0, 0, 0, 1, 1⟩, ⟨102, [1, 1]⟩, ⟨103, [0, 0]⟩,
      ⟨104, [0, 1, 2]⟩, ⟨105, []⟩, 0, 0, 3, none⟩)
    ⟨⟨some ⟨100, [1, 0]⟩, ⟨101, [3, 4, 1]⟩, 2, 50⟩, 50, "p", "p.png",
      some ⟨0, 0, 1, 1, false, 0, 0, 0, 0, 0, 0, 0, 1, 1⟩, ⟨102, [1, 1]⟩, ⟨103, [0, 0]⟩,
      ⟨104, [0, 1, 2]⟩, ⟨105, []⟩, 0, 0, 3, none⟩ 200).2.2 rfl
  exact ⟨hb.1, hb.2.1, hb.2.2.2.2.1, hb.2.2.2.1, hc.2.2.1,
    hc.2.2.2.2.2.2.1 (by norm_num), hc.2.2.2.2.2.2.2.2.2.1 (by norm_num)⟩

/-- The unweighted loop never touches an output position below the write
cursor. -/
theorem unweightedLoop_lower (vs : List ℚ) (bt : BoneTransform) (stride cnt : Nat) :
    ∀ (r v w : Nat) (out : Nat → ℚ) (p : Nat), p < w →
      unweightedLoop vs bt stride cnt r v w out p = out p := by
  intro r
  induction r with
  | zero =>
    intro v w out p _
    rfl
  | succ r ih =>
    intro v w out p hp
    simp only [unweightedLoop]
    by_cases hw : w < cnt
    · rw [if_pos hw]
      rw [ih (v + 2) (w + stride) _ p (by omega)]
      rw [Function.update_noteq (by omega), Function.update_noteq (by omega)]
    · rw [if_neg hw]

/-- The unweighted loop leaves every position that is not of the form
`w + k*stride` or `w + k*stride + 1` (for an iteration `k` within the
fuel) unchanged. -/
theorem unweightedLoop_untouched (vs : List ℚ) (bt : BoneTransform) (stride cnt : Nat) :
    ∀ (r v w : Nat) (out : Nat → ℚ) (p : Nat),
      (∀ k, k < r → p ≠ w + k * stride ∧ p ≠ w + k * stride + 1) →
      unweightedLoop vs bt stride cnt r v w out p = out p := by
  intro r
  induction r with
  | zero =>
    intro v w out p _
    rfl
  | succ r ih =>
    intro v w out p hp
    simp only [unweightedLoop]
    by_cases hw : w < cnt
    · rw [if_pos hw]
      have hside : ∀ k, k < r →
          p ≠ (w + stride) + k * stride ∧ p ≠ (w + stride) + k * stride + 1 := by
        intro k hk
        have hk1 := hp (k + 1) (by omega)
        have e : w + (k + 1) * stride = w + stride + k * stride := by ring
        rw [e] at hk1
        exact hk1
      rw [ih (v + 2) (w + stride) _ p hside]
      have h0 := hp 0 (by omega)
      have e0 : w + 0 * stride = w := by ring
      rw [e0] at h0
      rw [Function.update_noteq h0.2, Function.update_noteq h0.1]
    · rw [if_neg hw]

/-- Write characterization of the unweighted loop run with fuel `r` on the
bound `cnt = w + r*stride` (the bound `computeWorldVertices` computes):
for `stride ≥ 2` and every iteration `k < r`, the pair written at
`w + k*stride` is the bone-transformed vertex read at `v + 2k`. -/
theorem unweightedLoop_written (vs : List ℚ) (bt : BoneTransform) (stride : Nat)
    (hs : 2 ≤ stride) :
    ∀ (r v w : Nat) (out : Nat → ℚ) (k : Nat), k < r →
      unweightedLoop vs bt stride (w + r * stride) r v w out (w + k * stride) =
        vs.getD (v + 2 * k) 0 * bt.a + vs.getD (v + 2 * k + 1) 0 * bt.b + bt.worldX ∧
      unweightedLoop vs bt stride (w + r * stride) r v w out (w + k * stride + 1) =
        vs.getD (v + 2 * k) 0 * bt.c + vs.getD (v + 2 * k + 1) 0 * bt.d + bt.worldY := by
  intro r
  induction r with
  | zero =>
    intro v w out k hk
    omega
  | succ r ih =>
    intro v w out k hk
    have hw : w < w + (r + 1) * stride := by
      have e : (r + 1) * stride = r * stride + stride := Nat.succ_mul r stride
      omega
    simp only [unweightedLoop, if_pos hw]
    cases k with
    | zero =>
      have e0 : w + 0 * stride = w := by ring
      have ecnt : w + (r + 1) * stride = (w + stride) + r * stride := by ring
      rw [e0]
      constructor
      · rw [ecnt, unweightedLoop_untouched vs bt stride _ r (v + 2) (w + stride) _ w ?_]
        · rw [Function.update_noteq (by omega), Function.update_same]
          norm_num
        · intro k' hk'
          constructor <;> omega
      · rw [ecnt, unweightedLoop_untouched vs bt stride _ r (v + 2) (w + stride) _ (w + 1) ?_]
        · rw [Function.update_same]
          norm_num
        · intro k' hk'
          constructor <;> omega
    | succ k =>
      have e1 : w + (k + 1) * stride = (w + stride) + k * stride := by ring
      have ecnt : w + (r + 1) * stride = (w + stride) + r * stride := by ring
      rw [e1, ecnt]
      have ihk := ih (v + 2) (w + stride)
        (Function.update (Function.update out w
            (vs.getD v 0 * bt.a + vs.getD (v + 1) 0 * bt.b + bt.worldX)) (w + 1)
          (vs.getD v 0 * bt.c + vs.getD (v + 1) 0 * bt.d + bt.worldY)) k (by omega)
      have e2 : v + 2 + 2 * k = v + 2 * (k + 1) := by ring
      rw [e2] at ihk
      exact ihk

/-- C1: for an unweighted attachment and `stride ≥ 2`,
`computeWorldVertices(slot, start, count, worldVertices, offset, stride)`
writes, for each `k < count/2`, `vx*a + vy*b + worldX` at
`offset + k*stride` and `vx*c + vy*d + worldY` at `offset + k*stride + 1`,
where `(vx, vy)` is read at indices `(start + 2k, start + 2k + 1)` from the
slot's deform buffer when it is non-empty and from the attachment's base
vertices otherwise, and `(a,b,c,d,worldX,worldY)` is the slot's bone's
world transform; every other output position is left unchanged. -/
theorem claim_C1 (att : VertexAttachmentPose) (slot : SlotPose) (start count : Nat)
    (out : Nat → ℚ) (offset stride : Nat) (hb : att.bones = none) (hs : 2 ≤ stride) :
    (∀ k, k < count / 2 →
      computeWorldVertices att slot start count out offset stride (offset + k * stride) =
        (if 0 < slot.deform.length then slot.deform else att.vertices).getD
            (start + 2 * k) 0 * slot.bone.a +
          (if 0 < slot.deform.length then slot.deform else att.vertices).getD
            (start + 2 * k + 1) 0 * slot.bone.b + slot.bone.worldX ∧
      computeWorldVertices att slot start count out offset stride (offset + k * stride + 1) =
        (if 0 < slot.deform.length then slot.deform else att.vertices).getD
            (start + 2 * k) 0 * slot.bone.c +
          (if 0 < slot.deform.length then slot.deform else att.vertices).getD
            (start + 2 * k + 1) 0 * slot.bone.d + slot.bone.worldY) ∧
    (∀ p, (∀ k, k < count / 2 → p ≠ offset + k * stride ∧ p ≠ offset + k * stride + 1) →
      computeWorldVertices att slot start count out offset stride p = out p) := by
  constructor
  · intro k hk
    have h := unweightedLoop_written
      (if 0 < slot.deform.length then slot.deform else att.vertices) slot.bone stride hs
      (count / 2) start offset out k hk
    simpa [computeWorldVertices, hb] using h
  · intro p hp
    have h := unweightedLoop_untouched
      (if 0 < slot.deform.length then slot.deform else att.vertices) slot.bone stride
      (offset + count / 2 * stride) (count / 2) start offset out p hp
    simpa [computeWorldVertices, hb] using h

/-- Witness for C1: the base vertex `(1, 2)` under the bone transform
`(a,b,c,d) = (1,0,0,1)`, `(worldX, worldY) = (10, 20)` with an empty deform
buffer lands at `(11, 22)` in output positions 0 and 1, and position 5 is
untouched. -/
theorem claim_C1_witness :
    (2 : Nat) ≤ 2 ∧
    computeWorldVertices ⟨none, [1, 2], 2⟩ ⟨⟨1, 0, 0, 1, 10, 20⟩, [], []⟩ 0 2
      (fun _ => 0) 0 2 0 = 11 ∧
    computeWorldVertices ⟨none, [1, 2], 2⟩ ⟨⟨1, 0, 0, 1, 10, 20⟩, [], []⟩ 0 2
      (fun _ => 0) 0 2 1 = 22 ∧
    computeWorldVertices ⟨none, [1, 2], 2⟩ ⟨⟨1, 0, 0, 1, 10, 20⟩, [], []⟩ 0 2
      (fun _ => 0) 0 2 5 = 0 := by
  have h := claim_C1 ⟨none, [1, 2], 2⟩ ⟨⟨1, 0, 0, 1, 10, 20⟩, [], []⟩ 0 2
    (fun _ => 0) 0 2 rfl (by norm_num)
  have h1 := h.1 0 (by norm_num)
  have h2 := h.2 5 (by intro k hk; constructor <;> omega)
  refine ⟨by norm_num, ?_, ?_, ?_⟩
  · have := h1.1
    norm_num at this
    exact this
  · have := h1.2
    norm_num at this
    exact this
  · exact h2

end SpineVerify
